import Mathlib

/-!
# Verification of the PyPLE operator-tree model and evaluation engine

A shallow embedding of `pyple.py` (PyPLE v0.3.1): the `Operator` node
hierarchy, the per-variant `eval` methods, the regular-expression cache of
`Engine`, `Operator.addParameter`, `Engine.get_op`, `Engine.cache_regex` and
the cache side of `Engine.new_op`.

Python's `re` module is an external collaborator.  We model a compiled
regex object (`re.compile(pattern)` / `re.compile(pattern, re.IGNORECASE)`)
as a `Matcher` record of the pattern text and the IGNORECASE flag it was
compiled with, and parameterize every statement by an abstract search
semantics `S : String → Bool → String → Bool` (`S pattern ignoreCase text`
holds when the compiled pattern finds a match somewhere in `text`).  For
concrete witnesses `litSearch` instantiates `S` with literal-substring
search, which is what `re` does on metacharacter-free patterns.
-/

namespace PyPLE

/-- Python exceptions raised by the code under study: `assert` failures and
`raise ValueError(...)`, each carrying its message string. -/
inductive PyError where
  | assertionError (msg : String)
  | valueError (msg : String)
deriving DecidableEq, Repr

/-- A compiled regular-expression object, identified by the pattern text and
whether `re.IGNORECASE` was passed at compile time (the only flag the source
ever uses). -/
structure Matcher where
  pattern : String
  ignoreCase : Bool
deriving DecidableEq, Repr

/-- `re.compile(pattern)` (when `ignoreCase = false`) or
`re.compile(pattern, re.IGNORECASE)` (when `ignoreCase = true`). -/
def reCompile (pattern : String) (ignoreCase : Bool) : Matcher :=
  { pattern := pattern, ignoreCase := ignoreCase }

/-- Search semantics of the matcher collaborator: `S pattern ignoreCase text`
is the truth value of `re.compile(pattern, flags).search(text)` being a
match. -/
abbrev SearchSem := String → Bool → String → Bool

/-- `m.search text` under search semantics `S`. -/
def Matcher.search (S : SearchSem) (m : Matcher) (text : String) : Bool :=
  S m.pattern m.ignoreCase text

/-- `Engine.re_cache`: a Python dict from pattern strings to compiled
matchers, modelled as an association list (first binding wins; `dictSet`
keeps at most one binding per key). -/
abbrev ReCache := List (String × Matcher)

/-- Python `cache[k]` / `k in cache`: the binding of `k`, if any. -/
def dictGet (c : ReCache) (k : String) : Option Matcher :=
  (c.find? (fun e => e.1 = k)).map (fun e => e.2)

/-- Python `k in cache`. -/
def dictContains (c : ReCache) (k : String) : Bool :=
  (dictGet c k).isSome

/-- Python `cache[k] = v`: overwrite the existing binding or append a new
one. -/
def dictSet (c : ReCache) (k : String) (v : Matcher) : ReCache :=
  if (c.find? (fun e => e.1 = k)).isSome then
    c.map (fun e => if e.1 = k then (k, v) else e)
  else
    c ++ [(k, v)]

/-- The operator-tree node: one constructor per concrete class of
`pyple.py`, plus `operator` for the abstract base class `Operator`
(whose `eval` body is `pass`).  Every variant carries its ordered
`parameters` list; `RegexOp` additionally carries `pattern` and
`case_sensitive`. -/
inductive Op where
  | operator (parameters : List Op)
  | AlwaysTrueOp (parameters : List Op)
  | AlwaysFalseOp (parameters : List Op)
  | RegexOp (pattern : String) (case_sensitive : Bool) (parameters : List Op)
  | AND (parameters : List Op)
  | OR (parameters : List Op)
  | NOT (parameters : List Op)
  | XOR (parameters : List Op)
  | NAND (parameters : List Op)
  | NOR (parameters : List Op)

/-- A Python `eval` return value: `none` is Python `None` (what the base
class's `pass` body returns), `some b` a real boolean. -/
abbrev PyVal := Option Bool

/-- Python truthiness of an `eval` result: `None` is falsy. -/
def truthy : PyVal → Bool
  | none => false
  | some b => b

/-- `RegexOp.compile` without an engine: honors `case_sensitive`
(source lines 120-124). -/
def RegexOp.compileM (pattern : String) (case_sensitive : Bool) : Matcher :=
  if case_sensitive then reCompile pattern false
  else reCompile pattern true

def notMsg : String := "NOT only works with one or zero Operator parameters"
def xorMsg : String := "XOR only works with two Operator parameters"
def nandMsg : String := "NAND only works with two Operator parameters"
def norMsg : String := "NOR only works with two or more Operator parameters"

mutual

/-- `eval(data)` of a node, dispatched by class exactly as in the source.
Composite operators call `param.eval(data)` on their children with no
engine, so recursive regex evaluation always takes the engine-less branch
of `RegexOp.eval` (compile honoring `case_sensitive`, no cache).  The
result is `Except` over the Python exceptions the code can raise (`assert`
arity failures), and a `PyVal` because the base class returns `None`.
Python's short-circuiting `and` in `XOR.eval` and `NAND.eval` is mirrored
call-for-call, including the re-evaluation of a child inside the `elif`
arm of `XOR.eval`. -/
def Op.eval (S : SearchSem) : Op → String → Except PyError PyVal
  | .operator _, _ => .ok none
  | .AlwaysTrueOp _, _ => .ok (some true)
  | .AlwaysFalseOp _, _ => .ok (some false)
  | .RegexOp p cs _, d =>
      .ok (some ((RegexOp.compileM p cs).search S d))
  | .AND ps, d => Op.evalAndList S ps d
  | .OR ps, d => Op.evalOrList S ps d
  | .NOT ps, d =>
      if ps.length < 2 then Op.evalNotList S ps d
      else .error (.assertionError notMsg)
  | .XOR ps, d =>
      match ps with
      | [c0, c1] => do
          let e0 ← Op.eval S c0 d
          if truthy e0 then do
            let e1 ← Op.eval S c1 d
            if truthy e1 then do
              let e1b ← Op.eval S c1 d
              if truthy e1b then do
                let e0b ← Op.eval S c0 d
                if truthy e0b then pure (some false) else pure (some true)
              else pure (some false)
            else pure (some true)
          else do
            let e1 ← Op.eval S c1 d
            if truthy e1 then do
              let e0b ← Op.eval S c0 d
              if truthy e0b then pure (some false) else pure (some true)
            else pure (some false)
      | _ => .error (.assertionError xorMsg)
  | .NAND ps, d =>
      match ps with
      | [c0, c1] => do
          let e0 ← Op.eval S c0 d
          if truthy e0 then do
            let e1 ← Op.eval S c1 d
            if truthy e1 then pure (some false) else pure (some true)
          else pure (some true)
      | _ => .error (.assertionError nandMsg)
  | .NOR ps, d =>
      if ps.length ≥ 2 then Op.evalNorList S ps d
      else .error (.assertionError norMsg)

/-- The `for` loop of `AND.eval`: returns `False` at the first falsy child
(short-circuit), `True` when the loop completes. -/
def Op.evalAndList (S : SearchSem) : List Op → String → Except PyError PyVal
  | [], _ => .ok (some true)
  | c :: rest, d => do
      let v ← Op.eval S c d
      if truthy v then Op.evalAndList S rest d else pure (some false)

/-- The `for` loop of `OR.eval`: returns `True` at the first truthy child
(short-circuit), `False` when the loop completes. -/
def Op.evalOrList (S : SearchSem) : List Op → String → Except PyError PyVal
  | [], _ => .ok (some false)
  | c :: rest, d => do
      let v ← Op.eval S c d
      if truthy v then pure (some true) else Op.evalOrList S rest d

/-- The `for` loop of `NOT.eval` (after its arity assert): returns `False`
at the first truthy child, `True` when the loop completes. -/
def Op.evalNotList (S : SearchSem) : List Op → String → Except PyError PyVal
  | [], _ => .ok (some true)
  | c :: rest, d => do
      let v ← Op.eval S c d
      if truthy v then pure (some false) else Op.evalNotList S rest d

/-- The `for` loop of `NOR.eval` (after its arity assert): returns `False`
at the first truthy child, `True` when the loop completes. -/
def Op.evalNorList (S : SearchSem) : List Op → String → Except PyError PyVal
  | [], _ => .ok (some true)
  | c :: rest, d => do
      let v ← Op.eval S c d
      if truthy v then pure (some false) else Op.evalNorList S rest d

end

/-- `RegexOp.compile(engine)` (source lines 120-127): compile honoring
`case_sensitive` and, when an engine is supplied, store the result in its
`re_cache` under the pattern.  Returns the matcher and the engine's cache
afterwards. -/
def RegexOp.compile (pattern : String) (case_sensitive : Bool) :
    Option ReCache → Matcher × Option ReCache
  | none => (RegexOp.compileM pattern case_sensitive, none)
  | some c =>
      (RegexOp.compileM pattern case_sensitive,
       some (dictSet c pattern (RegexOp.compileM pattern case_sensitive)))

/-- `RegexOp.eval(data, engine)` (source lines 129-142): with no engine,
compile transiently; with an engine, reuse the cached matcher when
`pattern in engine.re_cache`, otherwise compile-and-store through
`RegexOp.compile`.  Then `search` the data and coerce the match object to a
boolean.  Returns the result together with the engine cache afterwards. -/
def RegexOp.evalE (S : SearchSem) (pattern : String) (case_sensitive : Bool)
    (data : String) : Option ReCache → Bool × Option ReCache
  | none =>
      let (m, eng) := RegexOp.compile pattern case_sensitive none
      (m.search S data, eng)
  | some c =>
      match dictGet c pattern with
      | some m => (m.search S data, some c)
      | none =>
          let (m, eng) := RegexOp.compile pattern case_sensitive (some c)
          (m.search S data, eng)

/-- `RegexOp.eval(data, engine)` instrumented with a compile counter: the
third component counts the calls to `RegexOp.compile` (hence to
`re.compile`) the evaluation performs. -/
def RegexOp.evalECount (S : SearchSem) (pattern : String)
    (case_sensitive : Bool) (data : String) :
    Option ReCache → Bool × Option ReCache × Nat
  | none =>
      let (m, eng) := RegexOp.compile pattern case_sensitive none
      (m.search S data, eng, 1)
  | some c =>
      match dictGet c pattern with
      | some m => (m.search S data, some c, 0)
      | none =>
          let (m, eng) := RegexOp.compile pattern case_sensitive (some c)
          (m.search S data, eng, 1)

/-- `Engine.cache_regex(pattern, obj)` (source lines 279-283): store `obj`
when given; otherwise store `re.compile(pattern)` — compiled with NO flags,
so never with `re.IGNORECASE` (the source's own `#NOTE` records this). -/
def Engine.cache_regex (c : ReCache) (pattern : String)
    (obj : Option Matcher) : ReCache :=
  match obj with
  | some m => dictSet c pattern m
  | none => dictSet c pattern (reCompile pattern false)

/-- The Python class object passed to `Engine.new_op` as `optype`. -/
inductive OpType where
  | operator | alwaysTrueOp | alwaysFalseOp | regexOp
  | and | or | not | xor | nand | nor
deriving DecidableEq, Repr

/-- The cache effect of `Engine.new_op(optype, **kw)` (source lines
265-272): when `optype is RegexOp` and a `pattern` keyword was passed, the
engine pre-warms its cache via `cache_regex(kw['pattern'])` (no matcher
object argument); otherwise the cache is untouched.  Node construction
itself is the ORM's job and adds nothing to the cache. -/
def Engine.new_op_cache (c : ReCache) (optype : OpType)
    (kwPattern : Option String) : ReCache :=
  match optype, kwPattern with
  | .regexOp, some p => Engine.cache_regex c p none
  | _, _ => c

/-- `subSearch p t`: does `p` occur as a contiguous run inside `t`? -/
def subSearch (p : List Char) : List Char → Bool
  | [] => p.isEmpty
  | c :: rest => p.isPrefixOf (c :: rest) || subSearch p rest

/-- ASCII lowercase folding of one character. -/
def lowerChar (c : Char) : Char :=
  if 65 ≤ c.toNat ∧ c.toNat ≤ 90 then Char.ofNat (c.toNat + 32) else c

/-- Literal-substring search semantics for the matcher collaborator,
used to instantiate `SearchSem` on concrete inputs: on a
metacharacter-free pattern, `re.compile(p).search(t)` succeeds iff `p`
occurs somewhere in `t` (unanchored), and `re.IGNORECASE` folds the case
of both sides. -/
def litSearch : SearchSem := fun p ic t =>
  if ic then subSearch (p.data.map lowerChar) (t.data.map lowerChar)
  else subSearch p.data t.data

example : litSearch "a" true "bAc" = true := by decide
example : litSearch "a" false "bAc" = false := by decide

/-- Node identities and their `parameters` join: node id ↦ ordered list of
child ids.  Python's `is` is identity of objects, so two nodes are the same
object exactly when their ids coincide. -/
def NodeStore := Nat → List Nat

/-- Modelled from the spec: `addOperator` is the ORM-generated append on the
`parameters` RelatedJoin (not under src/); per the spec's node-store
interface it "appends `child` to the children sequence" of `node` and
touches nothing else. -/
def addOperator (s : NodeStore) (node child : Nat) : NodeStore :=
  fun n => if n = node then s n ++ [child] else s n

def selfRefMsg : String := "A rule cannot contain itself as a sub-rule!"

/-- `Operator.addParameter(param)` (source lines 84-88): raise
`ValueError` when `param is self`, otherwise `addOperator(param)`.
Returns the store after the call together with the raised error, if any. -/
def Operator.addParameter (s : NodeStore) (node child : Nat) :
    NodeStore × Option PyError :=
  if child = node then (s, some (.valueError selfRefMsg))
  else (addOperator s node child, none)

/-- A persisted `Operator` row: identity plus the optional, non-unique
`name` column. -/
structure OpRow where
  id : Nat
  name : Option String
deriving DecidableEq, Repr

/-- Modelled from the spec: `Operator.selectBy(name=n)` is the ORM's
lookup-by-name collaborator (not under src/); per the spec's node-store
interface it returns the zero/one/many rows whose `name` equals `n`. -/
def Operator.selectBy (store : List OpRow) (n : String) : List OpRow :=
  store.filter (fun r => r.name = some n)

def getOpMsg : String := "Operator.selectBy(name=name) should return only one result."

/-- `Engine.get_op(name)` (source lines 274-277): select by name, `assert`
that the result set has exactly one element, and return `rs[0]`.  The same
`AssertionError` is raised whether the count is zero or more than one. -/
def Engine.get_op (store : List OpRow) (n : String) : Except PyError OpRow :=
  match Operator.selectBy store n with
  | [r] => .ok r
  | _ => .error (.assertionError getOpMsg)

/-- `XOR.eval` (source lines 176-183) instrumented with the sequence of
child indices on which `.eval(data)` is invoked, in call order, mirroring
Python's short-circuiting `and` inside both branch conditions (including
the re-evaluations in the `elif` arm).  The second component is the trace
up to the point where a child exception propagates. -/
def XOR.evalTrace (S : SearchSem) (c0 c1 : Op) (d : String) :
    Except PyError PyVal × List Nat :=
  match Op.eval S c0 d with
  | .error e => (.error e, [0])
  | .ok e0 =>
    if truthy e0 then
      match Op.eval S c1 d with
      | .error e => (.error e, [0, 1])
      | .ok e1 =>
        if truthy e1 then
          match Op.eval S c1 d with
          | .error e => (.error e, [0, 1, 1])
          | .ok e1b =>
            if truthy e1b then
              match Op.eval S c0 d with
              | .error e => (.error e, [0, 1, 1, 0])
              | .ok e0b =>
                  if truthy e0b then (.ok (some false), [0, 1, 1, 0])
                  else (.ok (some true), [0, 1, 1, 0])
            else (.ok (some false), [0, 1, 1])
        else (.ok (some true), [0, 1])
    else
      match Op.eval S c1 d with
      | .error e => (.error e, [0, 1])
      | .ok e1 =>
        if truthy e1 then
          match Op.eval S c0 d with
          | .error e => (.error e, [0, 1, 0])
          | .ok e0b =>
              if truthy e0b then (.ok (some false), [0, 1, 0])
              else (.ok (some true), [0, 1, 0])
        else (.ok (some false), [0, 1])


mutual

/-- Big-step evaluation relation for `eval(data)`: one rule per control
path of the per-class `eval` bodies.  Nothing in the rules fixes a result
a priori (repeated child evaluations, as performed by `XOR.eval`, get
independent premises), so determinism of this relation is a genuine
property of the code, not of the encoding. -/
inductive EvalR (S : SearchSem) : Op → String → Except PyError PyVal → Prop where
  | operator {ps d} : EvalR S (.operator ps) d (.ok none)
  | alwaysTrue {ps d} : EvalR S (.AlwaysTrueOp ps) d (.ok (some true))
  | alwaysFalse {ps d} : EvalR S (.AlwaysFalseOp ps) d (.ok (some false))
  | regex {p cs ps d} :
      EvalR S (.RegexOp p cs ps) d (.ok (some ((RegexOp.compileM p cs).search S d)))
  | and_ {ps d r} : AndR S ps d r → EvalR S (.AND ps) d r
  | or_ {ps d r} : OrR S ps d r → EvalR S (.OR ps) d r
  | not_arity {ps d} : ¬ ps.length < 2 →
      EvalR S (.NOT ps) d (.error (.assertionError notMsg))
  | not_ {ps d r} : ps.length < 2 → NotR S ps d r → EvalR S (.NOT ps) d r
  | nor_arity {ps d} : ¬ ps.length ≥ 2 →
      EvalR S (.NOR ps) d (.error (.assertionError norMsg))
  | nor_ {ps d r} : ps.length ≥ 2 → NorR S ps d r → EvalR S (.NOR ps) d r
  | xor_arity {ps d} : (∀ c0 c1 : Op, ps ≠ [c0, c1]) →
      EvalR S (.XOR ps) d (.error (.assertionError xorMsg))
  | xor_err0 {c0 c1 d e} : EvalR S c0 d (.error e) →
      EvalR S (.XOR [c0, c1]) d (.error e)
  | xor_t_err1 {c0 c1 d e0 e} : EvalR S c0 d (.ok e0) → truthy e0 = true →
      EvalR S c1 d (.error e) → EvalR S (.XOR [c0, c1]) d (.error e)
  | xor_t_f {c0 c1 d e0 e1} : EvalR S c0 d (.ok e0) → truthy e0 = true →
      EvalR S c1 d (.ok e1) → truthy e1 = false →
      EvalR S (.XOR [c0, c1]) d (.ok (some true))
  | xor_tt_err1b {c0 c1 d e0 e1 e} : EvalR S c0 d (.ok e0) → truthy e0 = true →
      EvalR S c1 d (.ok e1) → truthy e1 = true →
      EvalR S c1 d (.error e) → EvalR S (.XOR [c0, c1]) d (.error e)
  | xor_tt_f1b {c0 c1 d e0 e1 e1b} : EvalR S c0 d (.ok e0) → truthy e0 = true →
      EvalR S c1 d (.ok e1) → truthy e1 = true →
      EvalR S c1 d (.ok e1b) → truthy e1b = false →
      EvalR S (.XOR [c0, c1]) d (.ok (some false))
  | xor_tt_err0b {c0 c1 d e0 e1 e1b e} : EvalR S c0 d (.ok e0) → truthy e0 = true →
      EvalR S c1 d (.ok e1) → truthy e1 = true →
      EvalR S c1 d (.ok e1b) → truthy e1b = true →
      EvalR S c0 d (.error e) → EvalR S (.XOR [c0, c1]) d (.error e)
  | xor_tt_ok0b {c0 c1 d e0 e1 e1b e0b} : EvalR S c0 d (.ok e0) → truthy e0 = true →
      EvalR S c1 d (.ok e1) → truthy e1 = true →
      EvalR S c1 d (.ok e1b) → truthy e1b = true →
      EvalR S c0 d (.ok e0b) →
      EvalR S (.XOR [c0, c1]) d (.ok (some (!truthy e0b)))
  | xor_f_err1 {c0 c1 d e0 e} : EvalR S c0 d (.ok e0) → truthy e0 = false →
      EvalR S c1 d (.error e) → EvalR S (.XOR [c0, c1]) d (.error e)
  | xor_f_f {c0 c1 d e0 e1} : EvalR S c0 d (.ok e0) → truthy e0 = false →
      EvalR S c1 d (.ok e1) → truthy e1 = false →
      EvalR S (.XOR [c0, c1]) d (.ok (some false))
  | xor_f_t_err0b {c0 c1 d e0 e1 e} : EvalR S c0 d (.ok e0) → truthy e0 = false →
      EvalR S c1 d (.ok e1) → truthy e1 = true →
      EvalR S c0 d (.error e) → EvalR S (.XOR [c0, c1]) d (.error e)
  | xor_f_t_ok0b {c0 c1 d e0 e1 e0b} : EvalR S c0 d (.ok e0) → truthy e0 = false →
      EvalR S c1 d (.ok e1) → truthy e1 = true →
      EvalR S c0 d (.ok e0b) →
      EvalR S (.XOR [c0, c1]) d (.ok (some (!truthy e0b)))
  | nand_arity {ps d} : (∀ c0 c1 : Op, ps ≠ [c0, c1]) →
      EvalR S (.NAND ps) d (.error (.assertionError nandMsg))
  | nand_err0 {c0 c1 d e} : EvalR S c0 d (.error e) →
      EvalR S (.NAND [c0, c1]) d (.error e)
  | nand_f {c0 c1 d e0} : EvalR S c0 d (.ok e0) → truthy e0 = false →
      EvalR S (.NAND [c0, c1]) d (.ok (some true))
  | nand_t_err1 {c0 c1 d e0 e} : EvalR S c0 d (.ok e0) → truthy e0 = true →
      EvalR S c1 d (.error e) → EvalR S (.NAND [c0, c1]) d (.error e)
  | nand_t_ok1 {c0 c1 d e0 e1} : EvalR S c0 d (.ok e0) → truthy e0 = true →
      EvalR S c1 d (.ok e1) →
      EvalR S (.NAND [c0, c1]) d (.ok (some (!truthy e1)))

/-- The `AND.eval` loop as a relation. -/
inductive AndR (S : SearchSem) : List Op → String → Except PyError PyVal → Prop where
  | nil {d} : AndR S [] d (.ok (some true))
  | consErr {c rest d e} : EvalR S c d (.error e) → AndR S (c :: rest) d (.error e)
  | consFalse {c rest d v} : EvalR S c d (.ok v) → truthy v = false →
      AndR S (c :: rest) d (.ok (some false))
  | consTrue {c rest d v r} : EvalR S c d (.ok v) → truthy v = true →
      AndR S rest d r → AndR S (c :: rest) d r

/-- The `OR.eval` loop as a relation. -/
inductive OrR (S : SearchSem) : List Op → String → Except PyError PyVal → Prop where
  | nil {d} : OrR S [] d (.ok (some false))
  | consErr {c rest d e} : EvalR S c d (.error e) → OrR S (c :: rest) d (.error e)
  | consTrue {c rest d v} : EvalR S c d (.ok v) → truthy v = true →
      OrR S (c :: rest) d (.ok (some true))
  | consFalse {c rest d v r} : EvalR S c d (.ok v) → truthy v = false →
      OrR S rest d r → OrR S (c :: rest) d r

/-- The `NOT.eval` loop (after its arity assert) as a relation. -/
inductive NotR (S : SearchSem) : List Op → String → Except PyError PyVal → Prop where
  | nil {d} : NotR S [] d (.ok (some true))
  | consErr {c rest d e} : EvalR S c d (.error e) → NotR S (c :: rest) d (.error e)
  | consTrue {c rest d v} : EvalR S c d (.ok v) → truthy v = true →
      NotR S (c :: rest) d (.ok (some false))
  | consFalse {c rest d v r} : EvalR S c d (.ok v) → truthy v = false →
      NotR S rest d r → NotR S (c :: rest) d r

/-- The `NOR.eval` loop (after its arity assert) as a relation. -/
inductive NorR (S : SearchSem) : List Op → String → Except PyError PyVal → Prop where
  | nil {d} : NorR S [] d (.ok (some true))
  | consErr {c rest d e} : EvalR S c d (.error e) → NorR S (c :: rest) d (.error e)
  | consTrue {c rest d v} : EvalR S c d (.ok v) → truthy v = true →
      NorR S (c :: rest) d (.ok (some false))
  | consFalse {c rest d v r} : EvalR S c d (.ok v) → truthy v = false →
      NorR S rest d r → NorR S (c :: rest) d r

end

/-- Big-step relation for `RegexOp.eval(data, engine)`: result paired with
the engine cache afterwards (`none` = no engine). -/
inductive RegexEvalR (S : SearchSem) (p : String) (cs : Bool) (d : String) :
    Option ReCache → Bool × Option ReCache → Prop where
  | noEngine : RegexEvalR S p cs d none ((RegexOp.compileM p cs).search S d, none)
  | hit {c m} : dictGet c p = some m →
      RegexEvalR S p cs d (some c) (m.search S d, some c)
  | miss {c} : dictGet c p = none →
      RegexEvalR S p cs d (some c)
        ((RegexOp.compileM p cs).search S d,
         some (dictSet c p (RegexOp.compileM p cs)))

theorem dictGet_map_overwrite (c : ReCache) (k : String) (v : Matcher)
    (h : (c.find? (fun e => e.1 = k)).isSome) :
    dictGet (c.map (fun e => if e.1 = k then (k, v) else e)) k = some v := by
  induction c with
  | nil => simp at h
  | cons e rest ih =>
      by_cases he : e.1 = k
      · simp [dictGet, List.find?, he]
      · simp only [List.find?, decide_eq_false he] at h
        simp only [List.map_cons, if_neg he, dictGet, List.find?,
          decide_eq_false he]
        exact ih h

/-- After `cache[k] = v`, looking up `k` yields `v`. -/
theorem dictGet_dictSet_self (c : ReCache) (k : String) (v : Matcher) :
    dictGet (dictSet c k v) k = some v := by
  unfold dictSet
  by_cases hf : (c.find? (fun e => e.1 = k)).isSome
  · simp only [if_pos hf]
    exact dictGet_map_overwrite c k v hf
  · simp only [if_neg hf]
    induction c with
    | nil => simp [dictGet, List.find?]
    | cons e rest ih =>
        by_cases he : e.1 = k
        · exact absurd (by simp [List.find?, he]) hf
        · simp only [List.find?, decide_eq_false he, Bool.not_eq_true] at hf
          simp only [List.cons_append, dictGet, List.find?, decide_eq_false he]
          exact ih (by simp [hf])

/-- `RegexOp.compile` without an engine produces the matcher for the
pattern with IGNORECASE exactly when the node is not case-sensitive. -/
theorem compileM_search (S : SearchSem) (p : String) (cs : Bool) (d : String) :
    (RegexOp.compileM p cs).search S d = S p (!cs) d := by
  cases cs <;> rfl

/-- C1 (amended): `RegexOp.eval` returns true iff the pattern is found
somewhere in the data honoring the node's `case_sensitive` flag — both
without an engine and with an engine whose cache does not yet hold the
pattern.  With a cache pre-warmed by the engine's node-construction helper
(`Engine.new_op` → `cache_regex`), the stored matcher was compiled without
IGNORECASE, so the search is case-sensitive regardless of the node's
flag. -/
theorem C1_regex_amended (S : SearchSem) (p : String) (cs : Bool) (d : String) :
    (RegexOp.evalE S p cs d none).1 = S p (!cs) d ∧
    Op.eval S (.RegexOp p cs []) d = .ok (some (S p (!cs) d)) ∧
    (∀ c : ReCache, dictGet c p = none →
       (RegexOp.evalE S p cs d (some c)).1 = S p (!cs) d) ∧
    (∀ c : ReCache,
       (RegexOp.evalE S p cs d
          (some (Engine.new_op_cache c .regexOp (some p)))).1 = S p false d) := by
  refine ⟨?_, ?_, ?_, ?_⟩
  · simp [RegexOp.evalE, RegexOp.compile, compileM_search]
  · simp [Op.eval, compileM_search]
  · intro c hc
    simp [RegexOp.evalE, RegexOp.compile, hc, compileM_search]
  · intro c
    have hg : dictGet (Engine.new_op_cache c .regexOp (some p)) p
        = some (reCompile p false) := dictGet_dictSet_self c p _
    simp [RegexOp.evalE, hg, Matcher.search, reCompile]

/-- Witness for C1 (amended) at concrete inputs: a fresh cache matches
case-insensitively, a pre-warmed cache does not. -/
theorem C1_regex_amended_witness :
    (RegexOp.evalE litSearch "a" false "bA" (some [])).1 = true ∧
    (RegexOp.evalE litSearch "a" false "bA"
       (some (Engine.new_op_cache [] .regexOp (some "a")))).1 = false := by
  constructor
  · rw [(C1_regex_amended litSearch "a" false "bA").2.2.1 [] (by decide)]
    decide
  · rw [(C1_regex_amended litSearch "a" false "bA").2.2.2 []]
    decide

/-- Counterexample to C1 as stated: with a cache pre-warmed by
`Engine.new_op(RegexOp, pattern="a")`, the default case-insensitive node
`RegexOp(pattern="a")` evaluated on `"A"` returns false, although its
pattern matches the input case-insensitively. -/
theorem C1_counterexample :
    (RegexOp.evalE litSearch "a" false "A"
        (some (Engine.new_op_cache [] .regexOp (some "a")))).1 = false ∧
    litSearch "a" (!false) "A" = true := by
  constructor <;> decide

/-- C2: evaluating a Regex node with an engine cache: on a hit the stored
matcher is reused — whatever the current node's `case_sensitive` flag — and
the cache is unchanged; on a miss the pattern is compiled honoring the
node's flag, the compiled matcher is stored under the pattern string, and
the search runs with that matcher. -/
theorem C2_cache_path (S : SearchSem) (p : String) (cs : Bool) (d : String)
    (c : ReCache) :
    (∀ m, dictGet c p = some m →
       RegexOp.evalE S p cs d (some c) = (m.search S d, some c) ∧
       ∀ cs' : Bool,
         RegexOp.evalE S p cs' d (some c) = RegexOp.evalE S p cs d (some c)) ∧
    (dictGet c p = none →
       RegexOp.evalE S p cs d (some c) =
         ((RegexOp.compileM p cs).search S d,
          some (dictSet c p (RegexOp.compileM p cs))) ∧
       dictGet (dictSet c p (RegexOp.compileM p cs)) p =
         some (RegexOp.compileM p cs)) := by
  constructor
  · intro m hm
    exact ⟨by simp [RegexOp.evalE, hm],
           fun cs' => by simp [RegexOp.evalE, hm]⟩
  · intro hc
    exact ⟨by simp [RegexOp.evalE, RegexOp.compile, hc],
           dictGet_dictSet_self c p _⟩

/-- Witness for C2 at concrete inputs: a hit on a pre-filled cache ignores
the flag, a miss on the empty cache compiles and stores. -/
theorem C2_cache_path_witness :
    RegexOp.evalE litSearch "a" true "bA" (some [("a", reCompile "a" true)]) =
      (true, some [("a", reCompile "a" true)]) ∧
    RegexOp.evalE litSearch "a" true "bA" (some []) =
      (false, some [("a", reCompile "a" false)]) := by
  constructor
  · rw [((C2_cache_path litSearch "a" true "bA"
      [("a", reCompile "a" true)]).1 (reCompile "a" true) (by decide)).1]
    decide
  · rw [((C2_cache_path litSearch "a" true "bA" []).2 (by decide)).1]
    decide

/-- C7: two Regex nodes carrying the same pattern (with arbitrary
case-sensitivity flags) that share one engine cache not yet holding the
pattern: evaluating one and then the other performs exactly one compile in
total, and both evaluations return the same boolean on the same input. -/
theorem C7_shared_cache (S : SearchSem) (p : String) (cs1 cs2 : Bool)
    (d : String) (c : ReCache) (h : dictGet c p = none) :
    (RegexOp.evalECount S p cs1 d (some c)).2.2 +
      (RegexOp.evalECount S p cs2 d
        (RegexOp.evalECount S p cs1 d (some c)).2.1).2.2 = 1 ∧
    (RegexOp.evalECount S p cs1 d (some c)).1 =
      (RegexOp.evalECount S p cs2 d
        (RegexOp.evalECount S p cs1 d (some c)).2.1).1 := by
  have h1 : RegexOp.evalECount S p cs1 d (some c)
      = ((RegexOp.compileM p cs1).search S d,
         some (dictSet c p (RegexOp.compileM p cs1)), 1) := by
    simp [RegexOp.evalECount, RegexOp.compile, h]
  have h2 : RegexOp.evalECount S p cs2 d
        (some (dictSet c p (RegexOp.compileM p cs1)))
      = ((RegexOp.compileM p cs1).search S d,
         some (dictSet c p (RegexOp.compileM p cs1)), 0) := by
    simp [RegexOp.evalECount, dictGet_dictSet_self]
  rw [h1]
  simp [h2]

/-- Witness for C7 at concrete inputs: first node compiles, second hits;
equal results. -/
theorem C7_shared_cache_witness :
    (RegexOp.evalECount litSearch "a" true "A" (some [])).2.2 +
      (RegexOp.evalECount litSearch "a" false "A"
        (RegexOp.evalECount litSearch "a" true "A" (some [])).2.1).2.2 = 1 ∧
    (RegexOp.evalECount litSearch "a" true "A" (some [])).1 =
      (RegexOp.evalECount litSearch "a" false "A"
        (RegexOp.evalECount litSearch "a" true "A" (some [])).2.1).1 :=
  C7_shared_cache litSearch "a" true false "A" [] (by decide)

/-- C9: `Engine.cache_regex(pattern)` without a matcher object stores
`re.compile(pattern)` — compiled with no IGNORECASE flag — and
`Engine.new_op(RegexOp, pattern=...)` pre-warms the cache exactly that
way; a Regex node evaluated with that engine therefore searches
case-sensitively whatever its `case_sensitive` flag, in particular at the
default `case_sensitive=False`. -/
theorem C9_prewarm_case_sensitive (S : SearchSem) (c : ReCache)
    (p d : String) :
    Engine.cache_regex c p none = dictSet c p (reCompile p false) ∧
    Engine.new_op_cache c .regexOp (some p) = Engine.cache_regex c p none ∧
    (∀ cs : Bool,
      (RegexOp.evalE S p cs d (some (Engine.cache_regex c p none))).1
        = S p false d) := by
  refine ⟨rfl, rfl, fun cs => ?_⟩
  have hg : dictGet (Engine.cache_regex c p none) p = some (reCompile p false) :=
    dictGet_dictSet_self c p _
  simp [RegexOp.evalE, hg, Matcher.search, reCompile]

/-- `do`-notation reduction for `Except`: binding a succeeded computation. -/
theorem ok_bind {α β : Type} (a : α) (f : α → Except PyError β) :
    (Except.ok a >>= f) = f a := rfl

/-- `do`-notation reduction for `Except`: a raised exception propagates. -/
theorem error_bind {α β : Type} (e : PyError) (f : α → Except PyError β) :
    ((Except.error e : Except PyError α) >>= f) = .error e := rfl

/-- C3: `addParameter(node, child)` raises the self-reference `ValueError`
exactly when `child` and `node` are the same object; in that case nothing
is mutated; otherwise `child` is appended at the end of `node`'s children
and no other node's children change. -/
theorem C3_addParameter (s : NodeStore) (node child : Nat) :
    ((Operator.addParameter s node child).2 ≠ none ↔ child = node) ∧
    (child = node →
       Operator.addParameter s node child = (s, some (.valueError selfRefMsg))) ∧
    (child ≠ node →
       (Operator.addParameter s node child).2 = none ∧
       (Operator.addParameter s node child).1 node = s node ++ [child] ∧
       ∀ m, m ≠ node → (Operator.addParameter s node child).1 m = s m) := by
  by_cases h : child = node
  · subst h
    simp [Operator.addParameter, addOperator]
  · refine ⟨by simp [Operator.addParameter, h], fun hcn => absurd hcn h,
      fun _ => ⟨by simp [Operator.addParameter, h],
                by simp [Operator.addParameter, h, addOperator], ?_⟩⟩
    intro m hm
    simp [Operator.addParameter, h, addOperator, hm]

/-- Witness for C3 at concrete inputs: self-append raises and leaves the
store alone; a distinct child is appended at the end. -/
theorem C3_addParameter_witness :
    Operator.addParameter (fun _ => [7]) 0 0
      = ((fun _ => [7]), some (.valueError selfRefMsg)) ∧
    (Operator.addParameter (fun _ => [7]) 0 1).1 0 = [7, 1] := by
  refine ⟨(C3_addParameter (fun _ => [7]) 0 0).2.1 rfl, ?_⟩
  exact ((C3_addParameter (fun _ => [7]) 0 1).2.2 (by decide)).2.1

/-- The result component of the traced `XOR.eval` agrees with `eval`. -/
theorem xor_trace_fst (S : SearchSem) (c0 c1 : Op) (d : String) :
    (XOR.evalTrace S c0 c1 d).1 = Op.eval S (.XOR [c0, c1]) d := by
  unfold XOR.evalTrace
  rcases h0 : Op.eval S c0 d with e | e0
  · simp only [Op.eval]
    rw [h0]
    rfl
  · rcases h1 : Op.eval S c1 d with e | e1
    · simp only [Op.eval]
      rw [h0, h1]
      simp only [ok_bind, error_bind]
      cases ht : truthy e0 <;> simp [ht, error_bind]
    · simp only [Op.eval]
      rw [h0, h1]
      simp only [ok_bind]
      cases ht0 : truthy e0 <;> cases ht1 : truthy e1 <;>
        (simp [ht0, ht1, ok_bind]; try rfl)

/-- When both children evaluate without an exception, the `XOR.eval` trace
visits child 0 and child 1. -/
theorem xor_trace_mem (S : SearchSem) (c0 c1 : Op) (d : String)
    (e0 e1 : PyVal) (h0 : Op.eval S c0 d = .ok e0)
    (h1 : Op.eval S c1 d = .ok e1) :
    0 ∈ (XOR.evalTrace S c0 c1 d).2 ∧ 1 ∈ (XOR.evalTrace S c0 c1 d).2 := by
  unfold XOR.evalTrace
  rw [h0, h1]
  cases ht0 : truthy e0 <;> cases ht1 : truthy e1 <;> simp [ht0, ht1]

/-- C4: `XOR.eval` fails with the arity `AssertionError` unless there are
exactly two children; with two children whose evaluations return normally
it returns true iff exactly one of them is truthy, and its call trace
evaluates both children (no short-circuit). -/
theorem C4_xor (S : SearchSem) (d : String) :
    (∀ ps : List Op, ps.length ≠ 2 →
       Op.eval S (.XOR ps) d = .error (.assertionError xorMsg)) ∧
    (∀ (c0 c1 : Op) (e0 e1 : PyVal),
       Op.eval S c0 d = .ok e0 → Op.eval S c1 d = .ok e1 →
       Op.eval S (.XOR [c0, c1]) d = .ok (some (truthy e0 != truthy e1)) ∧
       (XOR.evalTrace S c0 c1 d).1 = Op.eval S (.XOR [c0, c1]) d ∧
       0 ∈ (XOR.evalTrace S c0 c1 d).2 ∧ 1 ∈ (XOR.evalTrace S c0 c1 d).2) := by
  constructor
  · intro ps hlen
    rcases ps with _ | ⟨a, _ | ⟨b, _ | ⟨c, rest⟩⟩⟩
    · rfl
    · rfl
    · exact absurd rfl hlen
    · rfl
  · intro c0 c1 e0 e1 h0 h1
    refine ⟨?_, xor_trace_fst S c0 c1 d, xor_trace_mem S c0 c1 d e0 e1 h0 h1⟩
    simp only [Op.eval]
    rw [h0, h1]
    rcases e0 with _ | b0
    · rcases e1 with _ | b1
      · rfl
      · cases b1 <;> rfl
    · rcases e1 with _ | b1
      · cases b0 <;> rfl
      · cases b0 <;> cases b1 <;> rfl

/-- Witness for C4 at concrete inputs: wrong arity raises, `[True, False]`
gives true with both children in the trace. -/
theorem C4_xor_witness :
    Op.eval litSearch (.XOR []) "x" = .error (.assertionError xorMsg) ∧
    Op.eval litSearch (.XOR [.AlwaysTrueOp [], .AlwaysFalseOp []]) "x"
      = .ok (some true) ∧
    0 ∈ (XOR.evalTrace litSearch (.AlwaysTrueOp []) (.AlwaysFalseOp []) "x").2 ∧
    1 ∈ (XOR.evalTrace litSearch (.AlwaysTrueOp []) (.AlwaysFalseOp []) "x").2 := by
  have h := (C4_xor litSearch "x").2 (.AlwaysTrueOp []) (.AlwaysFalseOp [])
    (some true) (some false) rfl rfl
  exact ⟨(C4_xor litSearch "x").1 [] (by decide), h.1, h.2.2⟩

/-- C5: `NOT.eval` fails with the arity `AssertionError` when there is more
than one child; returns true with zero children; and with one child whose
evaluation returns normally it returns the negation of that child's
truthiness. -/
theorem C5_not (S : SearchSem) (d : String) :
    (∀ ps : List Op, 2 ≤ ps.length →
       Op.eval S (.NOT ps) d = .error (.assertionError notMsg)) ∧
    Op.eval S (.NOT []) d = .ok (some true) ∧
    (∀ (c : Op) (e : PyVal), Op.eval S c d = .ok e →
       Op.eval S (.NOT [c]) d = .ok (some (!truthy e))) := by
  refine ⟨?_, rfl, ?_⟩
  · intro ps hlen
    have hnl : ¬ ps.length < 2 := by omega
    simp [Op.eval, hnl]
  · intro c e he
    simp only [Op.eval, Op.evalNotList]
    rw [he]
    rcases e with _ | b
    · rfl
    · cases b <;> rfl

/-- Witness for C5 at concrete inputs: two children raise, one true child
gives false. -/
theorem C5_not_witness :
    Op.eval litSearch (.NOT [.AlwaysTrueOp [], .AlwaysTrueOp []]) "x"
      = .error (.assertionError notMsg) ∧
    Op.eval litSearch (.NOT [.AlwaysTrueOp []]) "x" = .ok (some false) := by
  refine ⟨(C5_not litSearch "x").1 [.AlwaysTrueOp [], .AlwaysTrueOp []]
      (by decide), ?_⟩
  exact (C5_not litSearch "x").2.2 (.AlwaysTrueOp []) (some true) rfl

/-- C6 (amended): `get_op` returns the unique row when exactly one carries
the name; when zero or several carry it, it fails — but with one and the
same `AssertionError`, not two distinguishable error outcomes. -/
theorem C6_get_op_amended (store : List OpRow) (n : String) :
    (∀ r : OpRow, Operator.selectBy store n = [r] →
       Engine.get_op store n = .ok r) ∧
    ((Operator.selectBy store n).length ≠ 1 →
       Engine.get_op store n = .error (.assertionError getOpMsg)) ∧
    (∀ r : OpRow, r ∈ Operator.selectBy store n ↔
       r ∈ store ∧ r.name = some n) := by
  refine ⟨?_, ?_, ?_⟩
  · intro r hr
    simp [Engine.get_op, hr]
  · intro hlen
    unfold Engine.get_op
    rcases hsel : Operator.selectBy store n with _ | ⟨a, _ | ⟨b, rest⟩⟩
    · rfl
    · rw [hsel] at hlen
      simp at hlen
    · rfl
  · intro r
    simp [Operator.selectBy, List.mem_filter]

/-- Witness for C6 (amended) at concrete inputs. -/
theorem C6_get_op_amended_witness :
    Engine.get_op [⟨1, some "x"⟩, ⟨2, some "y"⟩] "y" = .ok ⟨2, some "y"⟩ ∧
    Engine.get_op [⟨1, some "x"⟩] "y" = .error (.assertionError getOpMsg) := by
  constructor
  · exact (C6_get_op_amended [⟨1, some "x"⟩, ⟨2, some "y"⟩] "y").1
      ⟨2, some "y"⟩ (by decide)
  · exact (C6_get_op_amended [⟨1, some "x"⟩] "y").2.1 (by decide)

/-- Counterexample to C6 as stated: the no-match case and the
several-matches case raise the very same `AssertionError`, so the two
failure modes are not distinguishable error outcomes. -/
theorem C6_counterexample :
    (Operator.selectBy [] "x").length = 0 ∧
    (Operator.selectBy [⟨1, some "x"⟩, ⟨2, some "x"⟩] "x").length = 2 ∧
    Engine.get_op [] "x" = .error (.assertionError getOpMsg) ∧
    Engine.get_op [⟨1, some "x"⟩, ⟨2, some "x"⟩] "x"
      = .error (.assertionError getOpMsg) ∧
    Engine.get_op [] "x" = Engine.get_op [⟨1, some "x"⟩, ⟨2, some "x"⟩] "x" :=
  ⟨rfl, rfl, rfl, rfl, rfl⟩

/-- C10: evaluating a bare abstract `Operator` returns Python `None`; a
logical parent treats that `None` as false instead of raising: `AND` with
such a child returns false immediately, `OR` skips it. -/
theorem C10_base_eval (S : SearchSem) (d : String) :
    (∀ ps : List Op, Op.eval S (.operator ps) d = .ok none) ∧
    (∀ ps rest : List Op,
       Op.eval S (.AND (.operator ps :: rest)) d = .ok (some false)) ∧
    (∀ ps rest : List Op,
       Op.eval S (.OR (.operator ps :: rest)) d = Op.eval S (.OR rest) d) ∧
    (∀ ps : List Op, Op.eval S (.OR [.operator ps]) d = .ok (some false)) :=
  ⟨fun _ => rfl, fun _ _ => rfl, fun _ _ => rfl, fun _ => rfl⟩

mutual

theorem evalR_sound {S : SearchSem} {n : Op} {d : String}
    {r : Except PyError PyVal} (h : EvalR S n d r) : Op.eval S n d = r := by
  cases h with
  | operator => rfl
  | alwaysTrue => rfl
  | alwaysFalse => rfl
  | regex => rfl
  | and_ hl => exact andR_sound hl
  | or_ hl => exact orR_sound hl
  | not_arity hlen => simp [Op.eval, hlen]
  | not_ hlen hl =>
      simp only [Op.eval, if_pos hlen]
      exact notR_sound hl
  | nor_arity hlen => simp [Op.eval, hlen]
  | nor_ hlen hl =>
      simp only [Op.eval, if_pos hlen]
      exact norR_sound hl
  | xor_arity hne =>
      rename_i ps
      rcases ps with _ | ⟨a, _ | ⟨b, _ | ⟨c, rest⟩⟩⟩
      · rfl
      · rfl
      · exact absurd rfl (hne a b)
      · rfl
  | xor_err0 h0 =>
      simp only [Op.eval]
      rw [evalR_sound h0]
      rfl
  | xor_t_err1 h0 t0 h1e =>
      simp only [Op.eval]
      rw [evalR_sound h0, evalR_sound h1e]
      simp [ok_bind, error_bind, t0]
  | xor_t_f h0 t0 h1 t1 =>
      simp only [Op.eval]
      rw [evalR_sound h0, evalR_sound h1]
      simp [ok_bind, t0, t1]
      try rfl
  | xor_tt_err1b h0 t0 h1 t1 h1be =>
      exact absurd ((evalR_sound h1).symm.trans (evalR_sound h1be)) (by simp)
  | xor_tt_f1b h0 t0 h1 t1 h1b t1b =>
      have h' := (evalR_sound h1).symm.trans (evalR_sound h1b)
      injection h' with he
      rw [← he] at t1b
      rw [t1] at t1b
      exact absurd t1b (by simp)
  | xor_tt_err0b h0 t0 h1 t1 h1b t1b h0be =>
      exact absurd ((evalR_sound h0).symm.trans (evalR_sound h0be)) (by simp)
  | xor_tt_ok0b h0 t0 h1 t1 h1b t1b h0b =>
      have h' := (evalR_sound h0).symm.trans (evalR_sound h0b)
      injection h' with he
      subst he
      simp only [Op.eval]
      rw [evalR_sound h0, evalR_sound h1]
      simp [ok_bind, t0, t1]
      try rfl
  | xor_f_err1 h0 t0 h1e =>
      simp only [Op.eval]
      rw [evalR_sound h0, evalR_sound h1e]
      simp [ok_bind, error_bind, t0]
  | xor_f_f h0 t0 h1 t1 =>
      simp only [Op.eval]
      rw [evalR_sound h0, evalR_sound h1]
      simp [ok_bind, t0, t1]
      try rfl
  | xor_f_t_err0b h0 t0 h1 t1 h0be =>
      exact absurd ((evalR_sound h0).symm.trans (evalR_sound h0be)) (by simp)
  | xor_f_t_ok0b h0 t0 h1 t1 h0b =>
      have h' := (evalR_sound h0).symm.trans (evalR_sound h0b)
      injection h' with he
      subst he
      simp only [Op.eval]
      rw [evalR_sound h0, evalR_sound h1]
      simp [ok_bind, t0, t1]
      try rfl
  | nand_arity hne =>
      rename_i ps
      rcases ps with _ | ⟨a, _ | ⟨b, _ | ⟨c, rest⟩⟩⟩
      · rfl
      · rfl
      · exact absurd rfl (hne a b)
      · rfl
  | nand_err0 h0 =>
      simp only [Op.eval]
      rw [evalR_sound h0]
      rfl
  | nand_f h0 t0 =>
      simp only [Op.eval]
      rw [evalR_sound h0]
      simp [ok_bind, t0]
      try rfl
  | nand_t_err1 h0 t0 h1e =>
      simp only [Op.eval]
      rw [evalR_sound h0, evalR_sound h1e]
      simp [ok_bind, error_bind, t0]
  | nand_t_ok1 h0 t0 h1 =>
      simp only [Op.eval]
      rw [evalR_sound h0, evalR_sound h1]
      simp only [ok_bind, t0, if_true]
      rename_i e1
      cases ht1 : truthy e1 <;> simp [ht1] <;> try rfl

theorem andR_sound {S : SearchSem} {ps : List Op} {d : String}
    {r : Except PyError PyVal} (h : AndR S ps d r) :
    Op.evalAndList S ps d = r := by
  cases h with
  | nil => rfl
  | consErr hc =>
      simp only [Op.evalAndList]
      rw [evalR_sound hc]
      rfl
  | consFalse hc htf =>
      simp only [Op.evalAndList]
      rw [evalR_sound hc]
      simp [ok_bind, htf]
      try rfl
  | consTrue hc ht hrest =>
      simp only [Op.evalAndList]
      rw [evalR_sound hc]
      simp only [ok_bind, ht, if_true]
      exact andR_sound hrest

theorem orR_sound {S : SearchSem} {ps : List Op} {d : String}
    {r : Except PyError PyVal} (h : OrR S ps d r) :
    Op.evalOrList S ps d = r := by
  cases h with
  | nil => rfl
  | consErr hc =>
      simp only [Op.evalOrList]
      rw [evalR_sound hc]
      rfl
  | consTrue hc ht =>
      simp only [Op.evalOrList]
      rw [evalR_sound hc]
      simp [ok_bind, ht]
      try rfl
  | consFalse hc htf hrest =>
      simp only [Op.evalOrList]
      rw [evalR_sound hc]
      simp only [ok_bind, htf, if_false]
      exact orR_sound hrest

theorem notR_sound {S : SearchSem} {ps : List Op} {d : String}
    {r : Except PyError PyVal} (h : NotR S ps d r) :
    Op.evalNotList S ps d = r := by
  cases h with
  | nil => rfl
  | consErr hc =>
      simp only [Op.evalNotList]
      rw [evalR_sound hc]
      rfl
  | consTrue hc ht =>
      simp only [Op.evalNotList]
      rw [evalR_sound hc]
      simp [ok_bind, ht]
      try rfl
  | consFalse hc htf hrest =>
      simp only [Op.evalNotList]
      rw [evalR_sound hc]
      simp only [ok_bind, htf, if_false]
      exact notR_sound hrest

theorem norR_sound {S : SearchSem} {ps : List Op} {d : String}
    {r : Except PyError PyVal} (h : NorR S ps d r) :
    Op.evalNorList S ps d = r := by
  cases h with
  | nil => rfl
  | consErr hc =>
      simp only [Op.evalNorList]
      rw [evalR_sound hc]
      rfl
  | consTrue hc ht =>
      simp only [Op.evalNorList]
      rw [evalR_sound hc]
      simp [ok_bind, ht]
      try rfl
  | consFalse hc htf hrest =>
      simp only [Op.evalNorList]
      rw [evalR_sound hc]
      simp only [ok_bind, htf, if_false]
      exact norR_sound hrest

end

/-- The relational semantics of `RegexOp.eval` with an engine agrees with
the function. -/
theorem regexEvalR_sound {S : SearchSem} {p : String} {cs : Bool}
    {d : String} {eng : Option ReCache} {r : Bool × Option ReCache}
    (h : RegexEvalR S p cs d eng r) : RegexOp.evalE S p cs d eng = r := by
  cases h with
  | noEngine => rfl
  | hit hm => simp [RegexOp.evalE, hm]
  | miss hc => simp [RegexOp.evalE, RegexOp.compile, hc]

/-- C8: evaluation is deterministic in (node, data, cache state): any two
derivations of the big-step relations from the same node, data and engine
cache yield the same outcome. -/
theorem C8_eval_deterministic (S : SearchSem) :
    (∀ (n : Op) (d : String) (r1 r2 : Except PyError PyVal),
       EvalR S n d r1 → EvalR S n d r2 → r1 = r2) ∧
    (∀ (p : String) (cs : Bool) (d : String) (eng : Option ReCache)
       (r1 r2 : Bool × Option ReCache),
       RegexEvalR S p cs d eng r1 → RegexEvalR S p cs d eng r2 →
       r1 = r2) := by
  constructor
  · intro n d r1 r2 h1 h2
    rw [← evalR_sound h1, evalR_sound h2]
  · intro p cs d eng r1 r2 h1 h2
    rw [← regexEvalR_sound h1, regexEvalR_sound h2]

/-- Witness for C8: two concrete derivations for the same inputs, collapsed
by determinism. -/
theorem C8_eval_deterministic_witness :
    (Except.ok (some true) : Except PyError PyVal) = .ok (some true) ∧
    ((true : Bool), (none : Option ReCache)) =
      ((true : Bool), (none : Option ReCache)) :=
  ⟨(C8_eval_deterministic litSearch).1
      (.XOR [.AlwaysTrueOp [], .AlwaysFalseOp []]) "x" _ _
      (.xor_t_f .alwaysTrue rfl .alwaysFalse rfl)
      (.xor_t_f .alwaysTrue rfl .alwaysFalse rfl),
   (C8_eval_deterministic litSearch).2 "a" false "ba" none _ _
      .noEngine .noEngine⟩
